import Mathlib

/-!
Shallow embedding of the voice-agent core of the repository
(`backend/app/voice_agent.py`, class `VoiceAgent`, and the related
endpoints of `backend/main.py`), together with theorems settling the
frozen claims about its behaviour.

Modelling conventions:
* Python JSON values (`json.loads` results) are the inductive `Json`;
  numbers are collapsed to `Int` (no claim depends on float arithmetic).
* The external websocket transport (`self.ws_app.send`) is an oracle
  `Nat → Bool` giving, per `send` call of one operation, whether the call
  succeeds (`true`) or raises (`false`).
* The external `run_forever` call of the reconnect loop is an oracle
  `Nat → AttemptResult` giving, per connection attempt, whether the call
  raised an exception and the value of `self.connected` when it finished.
* Registered callbacks are modelled as total (non-raising); the state
  only records whether one is registered and how often it was invoked.
* `time.time()` is a `Nat` parameter `now`.
-/

/-- JSON values as produced by `json.loads`. Object fields are an
association list; JSON parsing gives each key at most once, and lookups
take the last binding to match Python dict semantics. -/
inductive Json where
  | null : Json
  | bool : Bool → Json
  | num : Int → Json
  | str : String → Json
  | arr : List Json → Json
  | obj : List (String × Json) → Json

/-- Python `isinstance(x, dict)`. -/
def Json.isDict : Json → Bool
  | .obj _ => true
  | _ => false

/-- Python `d.get(k)` on a dict value: `none` when `j` is not a dict
(where Python would raise `AttributeError` on the `.get` access). -/
def Json.dGet : Json → String → Option Json
  | .obj fs, k => fs.reverse.lookup k
  | _, _ => none

/-- Python `d.get(k, dflt)` on a dict value (caller guarantees `j` is a
dict; on a non-dict this returns the default, but every use below guards
with `isDict` first, mirroring the source's order of evaluation). -/
def Json.dGetD (j : Json) (k : String) (d : Json) : Json :=
  (j.dGet k).getD d

/-- Python `x == "s"` for a JSON value against a string literal. -/
def Json.isStrEq : Json → String → Bool
  | .str t, s => t == s
  | _, _ => false

/-- Whether Python slicing `x[:100]` succeeds on this JSON value
(it does on `str` and `list`, and raises `TypeError` otherwise). -/
def Json.sliceable : Json → Bool
  | .str _ => true
  | .arr _ => true
  | _ => false

/-- The mutable state of a `VoiceAgent` instance (the fields of
`VoiceAgent.__init__` that the claims touch). `wsApp` is
`self.ws_app is not None`; the two callback fields record whether a
callback is registered. -/
structure AgentState where
  connected : Bool
  wsApp : Bool
  onMessageCb : Bool
  onConnectCb : Bool
  audioChunksSent : Nat
  audioBytesSent : Nat
  lastAudioLogTime : Nat
  deriving DecidableEq

/-- A message handed to `self.ws_app.send`: binary audio (opcode 0x2)
or a JSON text payload (the argument of `json.dumps`). -/
inductive WireMsg where
  | bin : List Nat → WireMsg
  | txt : Json → WireMsg

/-- An inbound websocket message as seen by `on_message`: binary bytes,
or a text frame together with its `json.loads` outcome (`Except.error`
models `json.JSONDecodeError`). -/
inductive InMsg where
  | binary : List Nat → InMsg
  | text : Except Unit Json → InMsg

/-- A value forwarded to the registered `on_message_callback`. -/
inductive Fwd where
  | bin : List Nat → Fwd
  | json : Json → Fwd

/-- Observable effect of one `on_message` invocation. `raised` means an
exception other than `json.JSONDecodeError` escaped the handler;
`droppedMalformed` means the `json.JSONDecodeError` branch ran. -/
structure MsgEffect where
  st : AgentState
  forwarded : List Fwd
  connectCalls : Nat
  raised : Bool
  droppedMalformed : Bool

/-- Observable effect of one send-style operation (`send_audio`,
`send_text`, `send_user_message`, `interrupt`). `calls` lists the
`ws_app.send` calls made, in order; `warned` is the not-connected
warning; `raised` means an exception escaped to the caller; `ret` is
the Python return value where the method returns one. -/
structure SendEffect where
  st : AgentState
  calls : List WireMsg
  warned : Bool
  raised : Bool
  ret : Option Bool

/-- Python falsiness of `os.environ.get("OPENAI_API_KEY")`:
`None` or the empty string. -/
def pyFalsyStr (k : Option String) : Bool :=
  k.isNone || k == some ""

/-- `VoiceAgent.__init__`: raises `ValueError` (modelled as `none`) when
the API key is falsy; otherwise returns the initial state. The
constructor performs no network operation (it only builds the URL and
header strings). -/
def VoiceAgent_init (apiKey : Option String) (now : Nat) : Option AgentState :=
  if pyFalsyStr apiKey then none
  else some { connected := false, wsApp := false, onMessageCb := false,
              onConnectCb := false, audioChunksSent := 0,
              audioBytesSent := 0, lastAudioLogTime := now }

/-- `VoiceAgent.on_open`: sets `connected := true` and invokes the
connect callback if registered (its exceptions are caught, so the
invocation still counts). Returns the new state and the number of
connect-callback invocations. -/
def on_open (st : AgentState) : AgentState × Nat :=
  ({ st with connected := true }, if st.onConnectCb then 1 else 0)

/-- `VoiceAgent.on_close`: sets `connected := false`. -/
def on_close (st : AgentState) : AgentState :=
  { st with connected := false }

/-- Tail of `on_message` for a parsed text payload: the
`"error" in data` logging branch (never raises) followed by the final
forward to the registered message callback. -/
def on_message_text_fwd (st : AgentState) (cc : Nat) (data : Json) : MsgEffect :=
  ⟨st, if st.onMessageCb then [.json data] else [], cc, false, false⟩

/-- Middle of `on_message` for a parsed text payload: the
`conversation.item.created` debug branch. Accessing `.get` on a
non-dict `item`, or slicing a non-sliceable `content`, raises
(`AttributeError` / `TypeError`), which only `json.JSONDecodeError` is
caught, so it escapes the handler. -/
def on_message_text_item (st : AgentState) (cc : Nat) (data : Json) : MsgEffect :=
  if data.isDict && (data.dGetD "type" .null).isStrEq "conversation.item.created" then
    let item := data.dGetD "item" (.obj [])
    if !item.isDict then ⟨st, [], cc, true, false⟩
    else
      let content := item.dGetD "content" (.str "unknown")
      if !content.sliceable then ⟨st, [], cc, true, false⟩
      else on_message_text_fwd st cc data
  else on_message_text_fwd st cc data

/-- Start of `on_message` for a parsed text payload: the
`session.created` branch. The log line calls `.get` on the `session`
field, raising `AttributeError` when it is present and not a dict; then
the connect callback fires only when one is registered and
`self.connected` is still false. -/
def on_message_text (st : AgentState) (data : Json) : MsgEffect :=
  if data.isDict && (data.dGetD "type" .null).isStrEq "session.created" then
    let sess := data.dGetD "session" (.obj [])
    if !sess.isDict then ⟨st, [], 0, true, false⟩
    else
      if st.onConnectCb && !st.connected then
        on_message_text_item { st with connected := true } 1 data
      else on_message_text_item st 0 data
  else on_message_text_item st 0 data

/-- `VoiceAgent.on_message`: binary payloads are forwarded verbatim to
the message callback; text payloads are `json.loads`-parsed —
`json.JSONDecodeError` is caught (warn and drop), any other exception
escapes — and the parsed value is inspected and then forwarded. -/
def on_message (st : AgentState) : InMsg → MsgEffect
  | .binary d => ⟨st, if st.onMessageCb then [.bin d] else [], 0, false, false⟩
  | .text (.error _) => ⟨st, [], 0, false, true⟩
  | .text (.ok data) => on_message_text st data

/-- The payload literal of `send_text`:
`{"type": "session.update", "session": {"instructions": text}}`. -/
def sessionUpdatePayload (text : String) : Json :=
  .obj [("type", .str "session.update"),
        ("session", .obj [("instructions", .str text)])]

/-- The first payload literal of `send_user_message`:
`{"type": "conversation.item.create",
  "item": {"type": "message", "role": "user", "content": text}}`. -/
def convItemCreatePayload (text : String) : Json :=
  .obj [("type", .str "conversation.item.create"),
        ("item", .obj [("type", .str "message"), ("role", .str "user"),
                       ("content", .str text)])]

/-- The second payload literal of `send_user_message`:
`{"type": "response.create"}`. -/
def responseCreatePayload : Json :=
  .obj [("type", .str "response.create")]

/-- The payload literal of `interrupt`: `{"type": "interrupt"}`. -/
def interruptPayload : Json :=
  .obj [("type", .str "interrupt")]

/-- `VoiceAgent.send_audio`: when connected with a live `ws_app`, bumps
the audio counters (resetting them when more than 5 seconds passed since
the last log), then sends the bytes; a send exception is caught, logged,
and sets `connected := false`. Otherwise logs a warning and does
nothing. -/
def send_audio (oracle : Nat → Bool) (now : Nat) (data : List Nat)
    (st : AgentState) : SendEffect :=
  if st.connected && st.wsApp then
    let st1 := { st with audioChunksSent := st.audioChunksSent + 1,
                         audioBytesSent := st.audioBytesSent + data.length }
    let st2 := if now - st1.lastAudioLogTime > 5 then
                 { st1 with audioChunksSent := 0, audioBytesSent := 0,
                            lastAudioLogTime := now }
               else st1
    if oracle 0 then ⟨st2, [.bin data], false, false, none⟩
    else ⟨{ st2 with connected := false }, [.bin data], false, false, none⟩
  else ⟨st, [], true, false, none⟩

/-- `VoiceAgent.send_text`: when connected with a live `ws_app`, sends
one `session.update` control message; a send exception is caught,
logged, and sets `connected := false`. Otherwise logs a warning and
does nothing. -/
def send_text (oracle : Nat → Bool) (text : String) (st : AgentState) : SendEffect :=
  if st.connected && st.wsApp then
    if oracle 0 then ⟨st, [.txt (sessionUpdatePayload text)], false, false, none⟩
    else ⟨{ st with connected := false }, [.txt (sessionUpdatePayload text)],
          false, false, none⟩
  else ⟨st, [], true, false, none⟩

/-- `VoiceAgent.send_user_message`: when connected with a live `ws_app`,
sends `conversation.item.create` then `response.create` and returns
`True`; a send exception is caught, sets `connected := false`, and the
method returns `False`. Otherwise logs a warning and returns
`False`. -/
def send_user_message (oracle : Nat → Bool) (text : String)
    (st : AgentState) : SendEffect :=
  if st.connected && st.wsApp then
    if oracle 0 then
      if oracle 1 then
        ⟨st, [.txt (convItemCreatePayload text), .txt responseCreatePayload],
         false, false, some true⟩
      else
        ⟨{ st with connected := false },
         [.txt (convItemCreatePayload text), .txt responseCreatePayload],
         false, false, some false⟩
    else
      ⟨{ st with connected := false }, [.txt (convItemCreatePayload text)],
       false, false, some false⟩
  else ⟨st, [], true, false, some false⟩

/-- `VoiceAgent.interrupt`: when connected with a live `ws_app`, sends
one `interrupt` control message and returns `True`; a send exception is
caught and the method returns `False` without touching `connected`.
Otherwise logs a warning and returns `False`. -/
def interrupt (oracle : Nat → Bool) (st : AgentState) : SendEffect :=
  if st.connected && st.wsApp then
    if oracle 0 then ⟨st, [.txt interruptPayload], false, false, some true⟩
    else ⟨st, [.txt interruptPayload], false, false, some false⟩
  else ⟨st, [], true, false, some false⟩

/-- Outcome of one `self.ws_app.run_forever(...)` call inside the
reconnect loop: either it raised an exception (caught by the loop's
`except`), or it returned; either way the field records the value of
`self.connected` when control came back (set by `on_open`/`on_close`
during the attempt). A handshake failure is `raised false`. -/
inductive AttemptResult where
  | raised : Bool → AttemptResult
  | returned : Bool → AttemptResult
  deriving DecidableEq

/-- Observable trace of one run of the `run_ws` loop: number of
`run_forever` connection attempts made, the `time.sleep` wait durations
between attempts in order, the final `self.connected`, and whether the
loop ended by exhausting `max_reconnects` (as opposed to a normal-close
`break`). -/
structure RunTrace where
  attempts : Nat
  waits : List Nat
  connected : Bool
  gaveUp : Bool
  deriving DecidableEq

/-- `max_reconnects` in `VoiceAgent.connect.run_ws`. -/
def maxReconnects : Nat := 5

/-- The loop body of `run_ws`, with `fuel = maxReconnects -
reconnect_count` encoding the `while reconnect_count < max_reconnects`
guard. Per iteration: run `run_forever` (the oracle, indexed by attempt
number); if it returned and `self.connected` is false, break (normal
closure); otherwise increment `reconnect_count`, and if still below the
maximum, sleep `min (5 * reconnect_count) 30` and loop, else give
up. -/
def runWsGo (oracle : Nat → AttemptResult) :
    Nat → Nat → Bool → Nat → List Nat → RunTrace
  | 0, _, conn, idx, ws => ⟨idx, ws, conn, true⟩
  | fuel + 1, count, _, idx, ws =>
    match oracle idx with
    | .returned c =>
      if !c then ⟨idx + 1, ws, c, false⟩
      else
        if count + 1 < maxReconnects then
          runWsGo oracle fuel (count + 1) c (idx + 1)
            (ws ++ [min (5 * (count + 1)) 30])
        else ⟨idx + 1, ws, c, true⟩
    | .raised c =>
      if count + 1 < maxReconnects then
        runWsGo oracle fuel (count + 1) c (idx + 1)
          (ws ++ [min (5 * (count + 1)) 30])
      else ⟨idx + 1, ws, c, true⟩

/-- One run of `run_ws` from a fresh `connect()` call
(`reconnect_count = 0`, `self.connected = false`). -/
def runWs (oracle : Nat → AttemptResult) : RunTrace :=
  runWsGo oracle maxReconnects 0 false 0 []

/-- Outcome of the external `aiohttp` POST in `get_session`: an HTTP
response (status, JSON body) or a raised exception with its message. -/
inductive PostOutcome where
  | resp : Nat → Json → PostOutcome
  | raiseExn : String → PostOutcome

/-- `GET /session` (`get_session` in `backend/main.py`): with a falsy
`OPENAI_API_KEY` it raises `HTTPException(500, "OPENAI_API_KEY not
set")` before any network call; otherwise it POSTs once to the
session-issuing endpoint — a 200 response body is returned, a non-200
raises `HTTPException` inside the `try`, which the blanket
`except Exception` rewraps (like any other exception) into
`HTTPException(500, "Internal error: ...")`. The second component
counts network calls made. -/
def get_session (apiKey : Option String) (post : Unit → PostOutcome) :
    Except (Nat × String) Json × Nat :=
  if pyFalsyStr apiKey then (.error (500, "OPENAI_API_KEY not set"), 0)
  else
    match post () with
    | .resp 200 body => (.ok body, 1)
    | .resp s _ =>
      (.error (500, "Internal error: " ++ toString s ++
                    ": Failed to fetch ephemeral token"), 1)
    | .raiseExn m => (.error (500, "Internal error: " ++ m), 1)

/-- An HTTP response of the downstream voice endpoint: status code and
JSON body. -/
structure HttpResp where
  status : Nat
  body : Json

/-- Modelled from the spec: the body of `webrtc_voice` — the downstream
client-facing endpoint that `backend/main.py` imports from
`app.voice_agent` and registers at `POST /webrtc/voice` — is not among
the sources (the `voice_agent.py` present holds the websocket revision
of the agent). Modelled from spec sections 4.3, 6 and 7: the request
body is `{sdp: <offer>}`; a missing or empty `sdp` yields 400 with an
`error` field; otherwise the offer/answer handshake (external, here an
oracle returning the answer or a raised exception message) yields 200
with `{sdp: <answer>}` on success, or 500 with `{error: <message>}` on
exception. -/
def webrtc_voice (body : List (String × String))
    (handshake : String → Except String String) : HttpResp :=
  match body.reverse.lookup "sdp" with
  | none => ⟨400, .obj [("error", .str "Missing sdp field")]⟩
  | some offer =>
    if offer = "" then ⟨400, .obj [("error", .str "Missing sdp field")]⟩
    else
      match handshake offer with
      | .ok answer => ⟨200, .obj [("sdp", .str answer)]⟩
      | .error msg => ⟨500, .obj [("error", .str msg)]⟩

/-- A websocket lifecycle event delivered to the `VoiceAgent` handlers
during one connection: the open handler, or one inbound message. -/
inductive WsEvent where
  | wsOpen : WsEvent
  | wsMsg : InMsg → WsEvent

/-- Running state while folding handler events: agent state plus the
total number of connect-callback invocations so far. -/
structure ConnTrace where
  st : AgentState
  connectCalls : Nat

/-- Dispatch one websocket event to the corresponding handler. -/
def procEvent (t : ConnTrace) : WsEvent → ConnTrace
  | .wsOpen =>
    let p := on_open t.st
    ⟨p.1, t.connectCalls + p.2⟩
  | .wsMsg m =>
    let e := on_message t.st m
    ⟨e.st, t.connectCalls + e.connectCalls⟩

/-- Fold a list of websocket events through the handlers. -/
def procEvents (t : ConnTrace) (es : List WsEvent) : ConnTrace :=
  es.foldl procEvent t

/-- Appending the first wait of a reconnect round in front of the waits
of the remaining rounds gives the waits of all rounds. -/
theorem waits_shift (ws : List Nat) (count m : Nat) :
    (ws ++ [min (5 * (count + 1)) 30]) ++
      (List.range m).map (fun i => min (5 * (count + 1 + i + 1)) 30) =
    ws ++ (List.range (m + 1)).map (fun i => min (5 * (count + i + 1)) 30) := by
  rw [List.range_succ_eq_map, List.append_assoc]
  simp only [List.map_cons, List.map_map, List.singleton_append]
  have h1 : count + 0 + 1 = count + 1 := by omega
  have h2 : ((fun i => min (5 * (count + i + 1)) 30) ∘ Nat.succ) =
      (fun i => min (5 * (count + 1 + i + 1)) 30) := by
    funext i
    simp only [Function.comp_apply]
    omega
  rw [h1, h2]

/-- Unfolding of the reconnect loop on `m` raising attempts followed by
one attempt that returns with `self.connected` false (a successful
connection that later closes normally): one attempt per failure plus
the final one, with the sleep `min (5 * attempt) 30` between
consecutive attempts. -/
theorem runWsGo_fail_then_close (oracle : Nat → AttemptResult) :
    ∀ (m fuel count idx : Nat) (b : Bool) (ws : List Nat),
      count + fuel = maxReconnects → m < fuel →
      (∀ k, k < m → oracle (idx + k) = .raised false) →
      oracle (idx + m) = .returned false →
      runWsGo oracle fuel count b idx ws =
        ⟨idx + m + 1,
         ws ++ (List.range m).map (fun i => min (5 * (count + i + 1)) 30),
         false, false⟩ := by
  intro m
  induction m with
  | zero =>
    intro fuel count idx b ws hcf hm hfail hsucc
    obtain ⟨f, rfl⟩ : ∃ f, fuel = f + 1 := ⟨fuel - 1, by omega⟩
    simp only [Nat.add_zero] at hsucc
    simp [runWsGo, hsucc]
  | succ m ih =>
    intro fuel count idx b ws hcf hm hfail hsucc
    obtain ⟨f, rfl⟩ : ∃ f, fuel = f + 1 := ⟨fuel - 1, by omega⟩
    have h0 : oracle idx = .raised false := by
      have := hfail 0 (by omega)
      simpa using this
    have hlt : count + 1 < maxReconnects := by
      simp only [maxReconnects] at hcf ⊢
      omega
    have step : runWsGo oracle (f + 1) count b idx ws =
        runWsGo oracle f (count + 1) false (idx + 1)
          (ws ++ [min (5 * (count + 1)) 30]) := by
      simp [runWsGo, h0, hlt]
    rw [step]
    rw [ih f (count + 1) (idx + 1) false (ws ++ [min (5 * (count + 1)) 30])
      (by simp only [maxReconnects] at hcf ⊢; omega) (by omega)
      (fun k hk => by
        have := hfail (k + 1) (by omega)
        have he : idx + 1 + k = idx + (k + 1) := by omega
        rw [he]
        exact this)
      (by
        have he : idx + 1 + m = idx + (m + 1) := by omega
        rw [he]
        exact hsucc)]
    rw [waits_shift]
    simp only [RunTrace.mk.injEq]
    exact ⟨by omega, by trivial, by trivial, by trivial⟩

/-- Unfolding of the reconnect loop when every remaining attempt raises:
the loop makes exactly `fuel` further attempts, sleeps between
consecutive ones, and gives up with `self.connected` false. -/
theorem runWsGo_exhaust (oracle : Nat → AttemptResult) :
    ∀ (fuel count idx : Nat) (b : Bool) (ws : List Nat),
      count + fuel = maxReconnects → 0 < fuel →
      (∀ k, k < fuel → oracle (idx + k) = .raised false) →
      runWsGo oracle fuel count b idx ws =
        ⟨idx + fuel,
         ws ++ (List.range (fuel - 1)).map (fun i => min (5 * (count + i + 1)) 30),
         false, true⟩ := by
  intro fuel
  induction fuel with
  | zero => intro count idx b ws hcf h0; omega
  | succ f ih =>
    intro count idx b ws hcf h0 hfail
    have hor : oracle idx = .raised false := by
      have := hfail 0 (by omega)
      simpa using this
    by_cases hlt : count + 1 < maxReconnects
    · have step : runWsGo oracle (f + 1) count b idx ws =
          runWsGo oracle f (count + 1) false (idx + 1)
            (ws ++ [min (5 * (count + 1)) 30]) := by
        simp [runWsGo, hor, hlt]
      rw [step]
      have hf : 0 < f := by simp only [maxReconnects] at hcf hlt; omega
      rw [ih (count + 1) (idx + 1) false (ws ++ [min (5 * (count + 1)) 30])
        (by simp only [maxReconnects] at hcf ⊢; omega) hf
        (fun k hk => by
          have := hfail (k + 1) (by omega)
          have he : idx + 1 + k = idx + (k + 1) := by omega
          rw [he]
          exact this)]
      have hfe : ∃ f1, f = f1 + 1 := ⟨f - 1, by omega⟩
      obtain ⟨f1, rfl⟩ := hfe
      simp only [Nat.add_sub_cancel]
      rw [waits_shift]
      simp only [RunTrace.mk.injEq]
      exact ⟨by omega, by trivial, by trivial, by trivial⟩
    · have hc5 : ¬ (count + 1 < maxReconnects) := hlt
      have step : runWsGo oracle (f + 1) count b idx ws = ⟨idx + 1, ws, false, true⟩ := by
        simp [runWsGo, hor, hc5]
      rw [step]
      have hf0 : f = 0 := by simp only [maxReconnects] at hcf hc5; omega
      subst hf0
      simp

/-- C1: for every run of the reconnect loop started by `connect()`,
given `N` consecutive connection failures with `N < maxReconnects`, the
client retries with waits `min (5 * attempt) 30` seconds, the waits are
non-decreasing and capped at 30 seconds, and the client makes `N + 1`
connection attempts in total, the `(N+1)`-th being the one that may
succeed. -/
theorem reconnect_backoff_attempts_and_waits (oracle : Nat → AttemptResult)
    (N : Nat) (hN : N < maxReconnects)
    (hfail : ∀ k, k < N → oracle k = .raised false)
    (hnext : oracle N = .returned false) :
    (runWs oracle).attempts = N + 1 ∧
    (runWs oracle).waits = (List.range N).map (fun i => min (5 * (i + 1)) 30) ∧
    (runWs oracle).waits.Pairwise (· ≤ ·) ∧
    ∀ w ∈ (runWs oracle).waits, w ≤ 30 := by
  have h := runWsGo_fail_then_close oracle N maxReconnects 0 0 false []
    (by simp) hN (fun k hk => by simpa using hfail k hk) (by simpa using hnext)
  have hrw : runWs oracle =
      ⟨N + 1, (List.range N).map (fun i => min (5 * (i + 1)) 30), false, false⟩ := by
    rw [runWs, h]
    simp only [List.nil_append, RunTrace.mk.injEq]
    refine ⟨by omega, ?_, by trivial, by trivial⟩
    apply List.map_congr_left
    intro i _
    omega
  refine ⟨by rw [hrw], by rw [hrw], ?_, ?_⟩
  · rw [hrw]
    refine List.Pairwise.map _ ?_ (List.pairwise_lt_range N)
    intro a b hab
    omega
  · rw [hrw]
    intro w hw
    simp only [List.mem_map] at hw
    obtain ⟨i, _, rfl⟩ := hw
    omega

/-- A concrete attempt oracle with three failures and then a successful
connection that later closes normally. -/
def c1Oracle : Nat → AttemptResult := fun k =>
  if k < 3 then .raised false else .returned false

/-- Witness for C1 at `N = 3`: four attempts in total with waits
`[5, 10, 15]`. -/
theorem reconnect_backoff_attempts_and_waits_witness :
    (runWs c1Oracle).attempts = 4 ∧
    (runWs c1Oracle).waits = [5, 10, 15] ∧
    (runWs c1Oracle).waits.Pairwise (· ≤ ·) ∧
    ∀ w ∈ (runWs c1Oracle).waits, w ≤ 30 := by
  have h := reconnect_backoff_attempts_and_waits c1Oracle 3 (by decide)
    (fun k hk => by simp [c1Oracle, hk]) (by simp [c1Oracle])
  refine ⟨h.1, ?_, h.2.2.1, h.2.2.2⟩
  rw [h.2.1]
  rfl

/-- C2: after `maxReconnects` (5) consecutive connection failures, the
reconnect loop makes exactly 5 attempts, performs no further attempt
(the loop gives up), and leaves `self.connected` false; nothing short of
an explicit `connect()` restarts it. -/
theorem reconnect_exhaustion_stops (oracle : Nat → AttemptResult)
    (hfail : ∀ k, k < maxReconnects → oracle k = .raised false) :
    (runWs oracle).attempts = maxReconnects ∧
    (runWs oracle).connected = false ∧
    (runWs oracle).gaveUp = true := by
  have h := runWsGo_exhaust oracle maxReconnects 0 0 false []
    (by simp) (by simp [maxReconnects]) (fun k hk => by simpa using hfail k hk)
  rw [runWs, h]
  simp

/-- A concrete attempt oracle where every attempt raises. -/
def c2Oracle : Nat → AttemptResult := fun _ => .raised false

/-- Witness for C2: with every attempt failing, the loop makes exactly
5 attempts and ends disconnected, having given up. -/
theorem reconnect_exhaustion_stops_witness :
    (runWs c2Oracle).attempts = 5 ∧
    (runWs c2Oracle).connected = false ∧
    (runWs c2Oracle).gaveUp = true :=
  reconnect_exhaustion_stops c2Oracle (fun _ _ => rfl)

/-- C3: `send_audio` and `send_text` invoked while the agent is not
connected raise nothing, make no `ws_app.send` call, log a warning, and
leave the whole agent state unchanged. -/
theorem send_disconnected_noop (oracle : Nat → Bool) (now : Nat)
    (data : List Nat) (text : String) (st : AgentState)
    (h : st.connected = false) :
    send_audio oracle now data st = ⟨st, [], true, false, none⟩ ∧
    send_text oracle text st = ⟨st, [], true, false, none⟩ := by
  constructor
  · simp [send_audio, h]
  · simp [send_text, h]

/-- A disconnected agent state with a live `ws_app` and both callbacks
registered. -/
def discState : AgentState :=
  ⟨false, true, true, true, 0, 0, 0⟩

/-- Witness for C3 on a concrete disconnected state, audio frame and
instruction. -/
theorem send_disconnected_noop_witness :
    send_audio (fun _ => true) 7 [1, 2, 3] discState =
      ⟨discState, [], true, false, none⟩ ∧
    send_text (fun _ => true) "hello" discState =
      ⟨discState, [], true, false, none⟩ :=
  send_disconnected_noop (fun _ => true) 7 [1, 2, 3] "hello" discState rfl

/-- C4: with the `OPENAI_API_KEY` credential absent (or empty),
`VoiceAgent.__init__` raises `ValueError` immediately, and
`GET /session` raises `HTTPException(500, "OPENAI_API_KEY not set")`
having made zero network calls. -/
theorem missing_api_key_config_error (key : Option String) (now : Nat)
    (post : Unit → PostOutcome) (h : pyFalsyStr key = true) :
    VoiceAgent_init key now = none ∧
    get_session key post = (.error (500, "OPENAI_API_KEY not set"), 0) := by
  constructor
  · simp [VoiceAgent_init, h]
  · simp [get_session, h]

/-- Witness for C4 with the environment variable unset and a post
oracle that would raise if ever called. -/
theorem missing_api_key_config_error_witness :
    VoiceAgent_init none 0 = none ∧
    get_session none (fun _ => .raiseExn "boom") =
      (.error (500, "OPENAI_API_KEY not set"), 0) :=
  missing_api_key_config_error none 0 (fun _ => .raiseExn "boom") rfl

/-- C6: while connected, `send_user_message` never raises; when both
transport sends succeed it sends exactly `conversation.item.create`
with the user text followed by `response.create` and returns `True`;
when either send fails it returns `False`; while disconnected it sends
nothing and returns `False`. -/
theorem send_user_message_two_messages (oracle : Nat → Bool)
    (text : String) (st : AgentState)
    (hc : st.connected = true) (hw : st.wsApp = true) :
    (send_user_message oracle text st).raised = false ∧
    (oracle 0 = true → oracle 1 = true →
      (send_user_message oracle text st).calls =
        [.txt (convItemCreatePayload text), .txt responseCreatePayload] ∧
      (send_user_message oracle text st).ret = some true) ∧
    (oracle 0 = false ∨ oracle 1 = false →
      (send_user_message oracle text st).ret = some false) ∧
    (∀ st' : AgentState, st'.connected = false →
      (send_user_message oracle text st').calls = [] ∧
      (send_user_message oracle text st').ret = some false ∧
      (send_user_message oracle text st').raised = false) := by
  refine ⟨?_, ?_, ?_, ?_⟩
  · by_cases h0 : oracle 0 <;> by_cases h1 : oracle 1 <;>
      simp [send_user_message, hc, hw, h0, h1]
  · intro h0 h1
    simp [send_user_message, hc, hw, h0, h1]
  · intro hor
    rcases hor with h0 | h1
    · simp [send_user_message, hc, hw, h0]
    · by_cases h0 : oracle 0 <;> simp [send_user_message, hc, hw, h0, h1]
  · intro st' h'
    refine ⟨?_, ?_, ?_⟩ <;> simp [send_user_message, h']

/-- A connected agent state with a live `ws_app`. -/
def connState : AgentState :=
  ⟨true, true, true, true, 0, 0, 0⟩

/-- Witness for C6: on a connected state with a transport accepting
both sends, exactly the two control messages go out and the call
returns `True`. -/
theorem send_user_message_two_messages_witness :
    (send_user_message (fun _ => true) "hi" connState).calls =
      [.txt (convItemCreatePayload "hi"), .txt responseCreatePayload] ∧
    (send_user_message (fun _ => true) "hi" connState).ret = some true :=
  (send_user_message_two_messages (fun _ => true) "hi" connState rfl rfl).2.1
    rfl rfl

/-- Counterexample to C7: on a connected state, `send_text "hi"` sends
the literal `session.update` payload of the source, whose `session`
object holds only `instructions` — it has no `voice`, `temperature` or
`input_audio_transcription` field. -/
theorem send_text_schema_counterexample :
    (send_text (fun _ => true) "hi" connState).calls =
      [.txt (sessionUpdatePayload "hi")] ∧
    (sessionUpdatePayload "hi").dGetD "session" .null =
      .obj [("instructions", .str "hi")] ∧
    ((sessionUpdatePayload "hi").dGetD "session" .null).dGet "voice" = none ∧
    ((sessionUpdatePayload "hi").dGetD "session" .null).dGet "temperature" = none ∧
    ((sessionUpdatePayload "hi").dGetD "session" .null).dGet
      "input_audio_transcription" = none := by
  refine ⟨?_, ?_, ?_, ?_, ?_⟩ <;> rfl

/-- C7 (amended): for every `send_text` call while connected, the single
control message sent is a `session.update` whose `session` object
carries exactly the behavioral-instructions field (and nothing else),
and no warning is logged. -/
theorem send_text_session_update_instructions_only (oracle : Nat → Bool)
    (text : String) (st : AgentState)
    (hc : st.connected = true) (hw : st.wsApp = true) :
    (send_text oracle text st).calls =
      [.txt (.obj [("type", .str "session.update"),
                   ("session", .obj [("instructions", .str text)])])] ∧
    (send_text oracle text st).warned = false := by
  by_cases h0 : oracle 0 <;>
    simp [send_text, sessionUpdatePayload, hc, hw, h0]

/-- Witness for the amended C7 on a concrete connected state. -/
theorem send_text_session_update_instructions_only_witness :
    (send_text (fun _ => true) "be brief" connState).calls =
      [.txt (.obj [("type", .str "session.update"),
                   ("session", .obj [("instructions", .str "be brief")])])] ∧
    (send_text (fun _ => true) "be brief" connState).warned = false :=
  send_text_session_update_instructions_only (fun _ => true) "be brief"
    connState rfl rfl

/-- C10: when a transport send raises, `interrupt` returns `False`
leaving the state (in particular `connected`) unchanged, whereas
`send_audio`, `send_text` and `send_user_message` set
`connected := false`; consequently, on any state with `connected`
false, all three become warning-logged no-ops that send nothing. -/
theorem interrupt_vs_sends_on_error (oracle : Nat → Bool) (now : Nat)
    (data : List Nat) (t : String) (st : AgentState)
    (hc : st.connected = true) (hw : st.wsApp = true)
    (hfail : oracle 0 = false) :
    (interrupt oracle st).st = st ∧
    (interrupt oracle st).ret = some false ∧
    (send_audio oracle now data st).st.connected = false ∧
    (send_text oracle t st).st.connected = false ∧
    (send_user_message oracle t st).st.connected = false ∧
    (∀ (o2 : Nat → Bool) (now2 : Nat) (d2 : List Nat) (t2 : String)
       (st' : AgentState), st'.connected = false →
       send_audio o2 now2 d2 st' = ⟨st', [], true, false, none⟩ ∧
       send_text o2 t2 st' = ⟨st', [], true, false, none⟩ ∧
       send_user_message o2 t2 st' = ⟨st', [], true, false, some false⟩) := by
  refine ⟨by simp [interrupt, hc, hw, hfail],
          by simp [interrupt, hc, hw, hfail], ?_, ?_, ?_, ?_⟩
  · simp only [send_audio, hc, hw, Bool.and_self, if_true, hfail,
      Bool.false_eq_true, if_false]
  · simp [send_text, hc, hw, hfail]
  · simp [send_user_message, hc, hw, hfail]
  · intro o2 now2 d2 t2 st' h'
    exact ⟨by simp [send_audio, h'], by simp [send_text, h'],
           by simp [send_user_message, h']⟩

/-- Witness for C10 on a concrete connected state with a transport
whose every send raises. -/
theorem interrupt_vs_sends_on_error_witness :
    (interrupt (fun _ => false) connState).st = connState ∧
    (interrupt (fun _ => false) connState).ret = some false ∧
    (send_audio (fun _ => false) 0 [9] connState).st.connected = false ∧
    (send_text (fun _ => false) "x" connState).st.connected = false ∧
    (send_user_message (fun _ => false) "x" connState).st.connected = false ∧
    (∀ (o2 : Nat → Bool) (now2 : Nat) (d2 : List Nat) (t2 : String)
       (st' : AgentState), st'.connected = false →
       send_audio o2 now2 d2 st' = ⟨st', [], true, false, none⟩ ∧
       send_text o2 t2 st' = ⟨st', [], true, false, none⟩ ∧
       send_user_message o2 t2 st' = ⟨st', [], true, false, some false⟩) :=
  interrupt_vs_sends_on_error (fun _ => false) 0 [9] "x" connState rfl rfl rfl

/-- A connected-but-flagged-disconnected state as it is when a text
message arrives before `on_open` ran: `ws_app` live, both callbacks
registered, `connected` still false. -/
def preOpenState : AgentState :=
  ⟨false, true, true, true, 0, 0, 0⟩

/-- A `session.created` event whose `session` field is valid JSON but
not an object. -/
def badSessionCreated : Json :=
  .obj [("type", .str "session.created"), ("session", .num 0)]

/-- Counterexample to C5: the text payload
`{"type": "session.created", "session": 0}` parses as JSON, yet
`on_message` does not forward it to the registered message callback —
the log line `data.get("session", {}).get("id", "unknown")` raises
`AttributeError` (only `json.JSONDecodeError` is caught), so the
exception escapes the handler instead. -/
theorem on_message_forward_counterexample :
    (on_message preOpenState (.text (.ok badSessionCreated))).forwarded = [] ∧
    (on_message preOpenState (.text (.ok badSessionCreated))).raised = true := by
  constructor <;> rfl

/-- The event-inspection guards of `on_message` for a parsed text
payload: for a `session.created` event the `session` field must be a
dict, and for a `conversation.item.created` event the `item` field must
be a dict with a string-or-list `content`; otherwise the inspection
raises. -/
def inspectionSafe (data : Json) : Bool :=
  (!(data.isDict && (data.dGetD "type" .null).isStrEq "session.created") ||
    (data.dGetD "session" (.obj [])).isDict) &&
  (!(data.isDict &&
      (data.dGetD "type" .null).isStrEq "conversation.item.created") ||
    ((data.dGetD "item" (.obj [])).isDict &&
     ((data.dGetD "item" (.obj [])).dGetD "content" (.str "unknown")).sliceable))

/-- C5 (amended): with a message callback registered, `on_message`
forwards binary payloads verbatim without raising; drops
JSON-parse-failing text payloads with a warning, without raising and
without invoking the callback; and forwards a parsed text payload to
the callback without raising provided the event-inspection guards hold
(for `session.created` a dict-valued `session`, for
`conversation.item.created` a dict-valued `item` whose `content` is
sliceable) — without them the inspection raises and the callback is not
invoked. -/
theorem on_message_forwarding_guarded (st : AgentState)
    (h : st.onMessageCb = true) :
    (∀ d : List Nat, on_message st (.binary d) = ⟨st, [.bin d], 0, false, false⟩) ∧
    (∀ e : Unit, on_message st (.text (.error e)) = ⟨st, [], 0, false, true⟩) ∧
    (∀ data : Json, inspectionSafe data = true →
      (on_message st (.text (.ok data))).forwarded = [.json data] ∧
      (on_message st (.text (.ok data))).raised = false) ∧
    (∀ data : Json, inspectionSafe data = false →
      (on_message st (.text (.ok data))).forwarded = [] ∧
      (on_message st (.text (.ok data))).raised = true) := by
  have hfwd : ∀ (st1 : AgentState), st1.onMessageCb = true → ∀ cc data,
      on_message_text_fwd st1 cc data = ⟨st1, [.json data], cc, false, false⟩ := by
    intro st1 h1 cc data
    simp [on_message_text_fwd, h1]
  have hitem : ∀ (st1 : AgentState), st1.onMessageCb = true → ∀ cc data,
      ((!(data.isDict &&
          (data.dGetD "type" .null).isStrEq "conversation.item.created") ||
        ((data.dGetD "item" (.obj [])).isDict &&
         ((data.dGetD "item" (.obj [])).dGetD "content"
            (.str "unknown")).sliceable)) = true →
        on_message_text_item st1 cc data = ⟨st1, [.json data], cc, false, false⟩) ∧
      ((!(data.isDict &&
          (data.dGetD "type" .null).isStrEq "conversation.item.created") ||
        ((data.dGetD "item" (.obj [])).isDict &&
         ((data.dGetD "item" (.obj [])).dGetD "content"
            (.str "unknown")).sliceable)) = false →
        on_message_text_item st1 cc data = ⟨st1, [], cc, true, false⟩) := by
    intro st1 h1 cc data
    by_cases hb : (data.isDict &&
        (data.dGetD "type" .null).isStrEq "conversation.item.created") = true
    · by_cases hi : (data.dGetD "item" (.obj [])).isDict = true
      · by_cases hs : ((data.dGetD "item" (.obj [])).dGetD "content"
            (.str "unknown")).sliceable = true
        · constructor
          · intro _
            rw [on_message_text_item, if_pos hb]
            simp only [hi, Bool.not_true, Bool.false_eq_true, if_false, hs]
            exact hfwd st1 h1 cc data
          · intro hc
            simp [hb, hi, hs] at hc
        · constructor
          · intro hc
            simp [hb, hi, hs] at hc
          · intro _
            rw [on_message_text_item, if_pos hb]
            simp only [hi, Bool.not_true, Bool.false_eq_true, if_false, hs,
              Bool.not_false, if_true]
      · constructor
        · intro hc
          simp [hb, hi] at hc
        · intro _
          rw [on_message_text_item, if_pos hb]
          simp only [hi, Bool.not_false, if_true]
    · have hb' : (data.isDict &&
          (data.dGetD "type" .null).isStrEq "conversation.item.created") = false := by
        simpa using hb
      constructor
      · intro _
        rw [on_message_text_item, if_neg (by simp [hb'])]
        exact hfwd st1 h1 cc data
      · intro hc
        simp [hb'] at hc
  refine ⟨?_, ?_, ?_, ?_⟩
  · intro d
    simp [on_message, h]
  · intro e
    rfl
  · intro data hsafe
    simp only [inspectionSafe, Bool.and_eq_true] at hsafe
    obtain ⟨h1, h2⟩ := hsafe
    simp only [on_message, on_message_text]
    by_cases hb : (data.isDict &&
        (data.dGetD "type" .null).isStrEq "session.created") = true
    · rw [if_pos hb]
      have hsess : (data.dGetD "session" (.obj [])).isDict = true := by
        rcases Bool.or_eq_true _ _ |>.mp h1 with hx | hx
        · simp [hb] at hx
        · exact hx
      simp only [hsess, Bool.not_true, Bool.false_eq_true, if_false]
      by_cases hcb : (st.onConnectCb && !st.connected) = true
      · rw [if_pos hcb]
        have := ((hitem { st with connected := true } h 1 data).1 h2)
        rw [this]
        exact ⟨by trivial, by trivial⟩
      · rw [if_neg hcb]
        have := ((hitem st h 0 data).1 h2)
        rw [this]
        exact ⟨by trivial, by trivial⟩
    · rw [if_neg hb]
      have := ((hitem st h 0 data).1 h2)
      rw [this]
      exact ⟨by trivial, by trivial⟩
  · intro data hunsafe
    simp only [inspectionSafe, Bool.and_eq_false_iff] at hunsafe
    simp only [on_message, on_message_text]
    by_cases hb : (data.isDict &&
        (data.dGetD "type" .null).isStrEq "session.created") = true
    · rw [if_pos hb]
      by_cases hsess : (data.dGetD "session" (.obj [])).isDict = true
      · simp only [hsess, Bool.not_true, Bool.false_eq_true, if_false]
        have h2 : (!(data.isDict &&
            (data.dGetD "type" .null).isStrEq "conversation.item.created") ||
            ((data.dGetD "item" (.obj [])).isDict &&
             ((data.dGetD "item" (.obj [])).dGetD "content"
                (.str "unknown")).sliceable)) = false := by
          rcases hunsafe with hx | hx
          · rw [Bool.or_eq_false_iff] at hx
            obtain ⟨hx1, hx2⟩ := hx
            simp [hb] at hx1
            simp [hx2] at hsess
          · exact hx
        by_cases hcb : (st.onConnectCb && !st.connected) = true
        · rw [if_pos hcb]
          have := ((hitem { st with connected := true } h 1 data).2 h2)
          rw [this]
          exact ⟨by trivial, by trivial⟩
        · rw [if_neg hcb]
          have := ((hitem st h 0 data).2 h2)
          rw [this]
          exact ⟨by trivial, by trivial⟩
      · simp only [hsess, Bool.not_false, if_true]
        exact ⟨by trivial, by trivial⟩
    · rw [if_neg hb]
      have h2 : (!(data.isDict &&
          (data.dGetD "type" .null).isStrEq "conversation.item.created") ||
          ((data.dGetD "item" (.obj [])).isDict &&
           ((data.dGetD "item" (.obj [])).dGetD "content"
              (.str "unknown")).sliceable)) = false := by
        rcases hunsafe with hx | hx
        · rw [Bool.or_eq_false_iff] at hx
          obtain ⟨hx1, _⟩ := hx
          have hb1 : (data.isDict &&
              (data.dGetD "type" Json.null).isStrEq "session.created") = true := by
            simpa using hx1
          exact absurd hb1 hb
        · exact hx
      have := ((hitem st h 0 data).2 h2)
      rw [this]
      exact ⟨by trivial, by trivial⟩

/-- A well-shaped `session.created` event payload. -/
def goodSessionCreated : Json :=
  .obj [("type", .str "session.created"), ("session", .obj [("id", .str "sess_1")])]

/-- Witness for the amended C5 on a concrete state with the message
callback registered: a binary frame, a malformed text frame, and a
well-shaped `session.created` text frame. -/
theorem on_message_forwarding_guarded_witness :
    on_message connState (.binary [1, 2]) =
      ⟨connState, [.bin [1, 2]], 0, false, false⟩ ∧
    on_message connState (.text (.error ())) =
      ⟨connState, [], 0, false, true⟩ ∧
    (on_message connState (.text (.ok goodSessionCreated))).forwarded =
      [.json goodSessionCreated] ∧
    (on_message connState (.text (.ok goodSessionCreated))).raised = false := by
  have h := on_message_forwarding_guarded connState rfl
  exact ⟨h.1 [1, 2], h.2.1 (),
         (h.2.2.1 goodSessionCreated rfl).1, (h.2.2.1 goodSessionCreated rfl).2⟩

/-- The `conversation.item.created` debug branch never changes the
agent state or the connect-call count it is given. -/
theorem on_message_text_item_st (st : AgentState) (cc : Nat) (data : Json) :
    (on_message_text_item st cc data).st = st ∧
    (on_message_text_item st cc data).connectCalls = cc := by
  simp only [on_message_text_item, on_message_text_fwd]
  split
  · split
    · exact ⟨rfl, rfl⟩
    · split
      · exact ⟨rfl, rfl⟩
      · exact ⟨rfl, rfl⟩
  · exact ⟨rfl, rfl⟩

/-- Once `self.connected` is true, `on_message` neither changes the
agent state nor invokes the connect callback (the `session.created`
branch requires `not self.connected`). -/
theorem on_message_keeps_connected (st : AgentState) (m : InMsg)
    (h : st.connected = true) :
    (on_message st m).st = st ∧ (on_message st m).connectCalls = 0 := by
  cases m with
  | binary d => exact ⟨rfl, rfl⟩
  | text r =>
    cases r with
    | error e => exact ⟨rfl, rfl⟩
    | ok data =>
      simp only [on_message, on_message_text]
      split
      · split
        · exact ⟨rfl, rfl⟩
        · have hcb : (st.onConnectCb && !st.connected) = false := by simp [h]
          simp only [hcb, Bool.false_eq_true, if_false]
          exact on_message_text_item_st st 0 data
      · exact on_message_text_item_st st 0 data

/-- Folding any list of inbound messages through the handlers leaves a
trace whose state is connected entirely unchanged. -/
theorem procEvents_msgs_fixed (msgs : List InMsg) :
    ∀ t : ConnTrace, t.st.connected = true →
      procEvents t (msgs.map .wsMsg) = t := by
  induction msgs with
  | nil => intro t _; rfl
  | cons m ms ih =>
    intro t h
    have hm := on_message_keeps_connected t.st m h
    have hstep : procEvent t (.wsMsg m) = t := by
      simp only [procEvent]
      rw [hm.1, hm.2, Nat.add_zero]
    simp only [List.map_cons, procEvents, List.foldl_cons, hstep]
    exact ih t h

/-- C8: on a successful connection establishment (the open handler runs
with a connect callback registered), the state becomes connected and
the connect callback is invoked exactly once, no matter which inbound
messages — including subsequent `session.created` events — follow. -/
theorem connect_callback_invoked_once (st : AgentState) (msgs : List InMsg)
    (hcb : st.onConnectCb = true) :
    (procEvents ⟨st, 0⟩ (.wsOpen :: msgs.map .wsMsg)).connectCalls = 1 ∧
    (procEvents ⟨st, 0⟩ (.wsOpen :: msgs.map .wsMsg)).st.connected = true := by
  have hopen : procEvent ⟨st, 0⟩ .wsOpen = ⟨{ st with connected := true }, 1⟩ := by
    simp [procEvent, on_open, hcb]
  have hrest := procEvents_msgs_fixed msgs ⟨{ st with connected := true }, 1⟩ rfl
  simp only [procEvents, List.foldl_cons, hopen]
  simp only [procEvents] at hrest
  rw [hrest]
  exact ⟨rfl, rfl⟩

/-- Witness for C8: starting disconnected with a registered connect
callback, the open handler followed by a `session.created` event yields
exactly one connect-callback invocation. -/
theorem connect_callback_invoked_once_witness :
    (procEvents ⟨discState, 0⟩
      (.wsOpen :: ([InMsg.text (.ok goodSessionCreated)]).map .wsMsg)).connectCalls = 1 ∧
    (procEvents ⟨discState, 0⟩
      (.wsOpen :: ([InMsg.text (.ok goodSessionCreated)]).map .wsMsg)).st.connected = true :=
  connect_callback_invoked_once discState [.text (.ok goodSessionCreated)] rfl

/-- C9: for every request to the downstream voice endpoint, a missing
or empty `sdp` field yields a 400 response with an `error` field; a
non-empty offer whose handshake succeeds yields a 200 response carrying
the (non-empty) `sdp` answer; a handshake exception yields a 500
response carrying the exception message. -/
theorem webrtc_voice_status_responses (body : List (String × String))
    (handshake : String → Except String String) :
    ((body.reverse.lookup "sdp" = none ∨ body.reverse.lookup "sdp" = some "") →
      (webrtc_voice body handshake).status = 400 ∧
      ∃ m, (webrtc_voice body handshake).body.dGet "error" = some (.str m)) ∧
    (∀ offer answer, body.reverse.lookup "sdp" = some offer → offer ≠ "" →
      handshake offer = .ok answer → answer ≠ "" →
      (webrtc_voice body handshake).status = 200 ∧
      (webrtc_voice body handshake).body.dGet "sdp" = some (.str answer) ∧
      answer ≠ "") ∧
    (∀ offer msg, body.reverse.lookup "sdp" = some offer → offer ≠ "" →
      handshake offer = .error msg →
      (webrtc_voice body handshake).status = 500 ∧
      (webrtc_voice body handshake).body.dGet "error" = some (.str msg)) := by
  refine ⟨?_, ?_, ?_⟩
  · intro hmiss
    rcases hmiss with hm | hm
    · simp only [webrtc_voice, hm]
      exact ⟨by trivial, "Missing sdp field", by trivial⟩
    · simp only [webrtc_voice, hm]
      refine ⟨?_, "Missing sdp field", ?_⟩ <;> simp [Json.dGet]
  · intro offer answer hsdp hne hok hansne
    simp only [webrtc_voice, hsdp]
    rw [if_neg hne]
    simp only [hok]
    exact ⟨by trivial, by trivial, hansne⟩
  · intro offer msg hsdp hne herr
    simp only [webrtc_voice, hsdp]
    rw [if_neg hne]
    simp only [herr]
    exact ⟨by trivial, by trivial⟩

/-- Witness for C9: a concrete offer with a succeeding handshake gets a
200 answer, and a concrete body without `sdp` gets a 400 error. -/
theorem webrtc_voice_status_responses_witness :
    ((webrtc_voice [("sdp", "v=0 offer")] (fun _ => .ok "v=0 answer")).status = 200 ∧
     (webrtc_voice [("sdp", "v=0 offer")] (fun _ => .ok "v=0 answer")).body.dGet "sdp" =
       some (.str "v=0 answer") ∧
     ("v=0 answer" : String) ≠ "") ∧
    ((webrtc_voice [] (fun _ => .ok "v=0 answer")).status = 400 ∧
     ∃ m, (webrtc_voice [] (fun _ => .ok "v=0 answer")).body.dGet "error" =
       some (.str m)) :=
  ⟨(webrtc_voice_status_responses [("sdp", "v=0 offer")]
      (fun _ => .ok "v=0 answer")).2.1 "v=0 offer" "v=0 answer" rfl
      (by decide) rfl (by decide),
   (webrtc_voice_status_responses [] (fun _ => .ok "v=0 answer")).1 (Or.inl rfl)⟩
